import Mathlib

/-!
Verification of the OVCR-ORIA "discovery" data-loading repository.

This file gives a shallow embedding, in Lean 4, of the parts of the
repository that the specification talks about:

  * `src/Faculty_Profiles/protect_faculty_ids.py` — the per-row faculty-ID
    encryption (XOR with a key in `1 .. KEY_MAX`);
  * `src/lib/oria.py` — the `DBConnection` helper: `fetch_id`,
    `get_or_set_id`, `read_many` (paged reads) and `write`;
  * `src/lib/master.py` — the entity-master library over the external
    organization tables (`master_external_org`,
    `master_external_org_alias`, `master_external_org_other_id`,
    `master_external_org_postcode`, `master_rel_external_external`),
    with temporal soft-delete (`valid_end`) semantics.

Database tables are modelled as Lean lists of row structures; the SQL
statements each function issues are translated clause by clause into
list operations.  MySQL's `NOW()` becomes an explicit `now : Nat`
parameter, auto-increment IDs become an explicit counter, and
`INSERT IGNORE` is modelled as "insert unless a row with the same
natural key already exists, regardless of validity", following the
functions' documented behaviour ("will succeed but not do anything if
the assertion is already present, even if marked as expired"), which
pins down the unique keys of the tables.
-/

namespace ProtectFacultyIds

/-- `KEY_MAX` from `protect_faculty_ids.py`: the largest accepted key. -/
def KEY_MAX : Nat := 0xffffff

/-- Python `str.strip()`: remove leading and trailing whitespace. -/
def pyStrip (s : String) : String :=
  String.mk
    (((s.toList.dropWhile Char.isWhitespace).reverse.dropWhile
        Char.isWhitespace).reverse)

/-- One decimal digit, for `pyInt`. -/
def digToN (c : Char) : Option Nat :=
  if c = '0' then some 0
  else if c = '1' then some 1
  else if c = '2' then some 2
  else if c = '3' then some 3
  else if c = '4' then some 4
  else if c = '5' then some 5
  else if c = '6' then some 6
  else if c = '7' then some 7
  else if c = '8' then some 8
  else if c = '9' then some 9
  else none

/-- Digit-list accumulator for `pyInt`. -/
def pyIntAux : List Char → Nat → Option Nat
  | [], acc => some acc
  | c :: cs, acc =>
    match digToN c with
    | none => none
    | some d => pyIntAux cs (acc * 10 + d)

/-- Python `int()` on an already-stripped field holding a non-negative
decimal numeral (the EDW person IDs); `none` when the string is empty
or not a numeral (Python would raise `ValueError`). -/
def pyInt (s : String) : Option Nat :=
  match s.toList with
  | [] => none
  | l => pyIntAux l 0

/-- One iteration of the row loop of `main` in `protect_faculty_ids.py`:
every field is stripped of surrounding whitespace (`row[idx].strip()`),
the first field is parsed as an integer (`int(row[0])`) and replaced by
its XOR with the key, the second field is dropped, and the remaining
fields pass through.  Returns `none` when the row is empty or its first
field is not a number (Python would raise). -/
def protect_row (key : Nat) (row : List String) : Option (Nat × List String) :=
  let stripped := row.map pyStrip
  match stripped with
  | [] => none
  | c0 :: _ =>
    match pyInt c0 with
    | none => none
    | some edw_id => some (edw_id ^^^ key, stripped.drop 2)

/-- The row loop of `main`: `protect_row` applied to every data row. -/
def protect_rows (key : Nat) (rows : List (List String)) :
    List (Option (Nat × List String)) :=
  rows.map (protect_row key)

end ProtectFacultyIds

namespace Oria

/-- `PAGESIZE` from `oria.py`: the page size used by `read_many`. -/
def PAGESIZE : Nat := 10000

/-- One page of a result set as fetched by `read_many`'s
`LIMIT PAGESIZE OFFSET offset` query. -/
def page {α : Type} (rows : List α) (offset : Nat) : List α :=
  (rows.drop offset).take PAGESIZE

/-- The paging loop of `DBConnection.read_many` (`oria.py`), online case:
starting at `offset`, repeatedly run the statement with
`LIMIT PAGESIZE OFFSET offset`, advancing `offset` by `PAGESIZE` per
query, yield the rows of each page, and stop after the first query that
returns no rows.  Returns the yielded rows together with the number of
page queries executed.  The `fuel` argument only bounds the number of
iterations so the recursion is structural; `read_many_loop_eq` shows
any fuel of at least one plus the number of needed page queries gives
the loop's exact behaviour. -/
def read_many_loop {α : Type} (rows : List α) :
    Nat → Nat → List α × Nat
  | 0, _ => ([], 0)
  | fuel + 1, offset =>
    match page rows offset with
    | [] => ([], 1)
    | a :: p =>
      let rest := read_many_loop rows fuel (offset + PAGESIZE)
      ((a :: p) ++ rest.1, rest.2 + 1)

/-- `DBConnection.read_many`: `start()` sets the offset to `0`; offline
connections yield nothing (the generator raises `StopIteration` before
any query).  `rows.length + 1` fuel is enough for the loop to reach its
empty page (`read_many_loop_eq`). -/
def read_many {α : Type} (offline : Bool) (rows : List α) : List α × Nat :=
  if offline then ([], 0) else read_many_loop rows (rows.length + 1) 0

/-- A row of a generic table: a surrogate `id` column plus named column
values, as read and written by `fetch_id` / `get_or_set_id`. -/
structure Row where
  id : Nat
  cols : List (String × String)
deriving DecidableEq

/-- A table with MySQL auto-increment: its rows plus the next fresh
surrogate ID. -/
structure Table where
  rows : List Row
  next_id : Nat
deriving DecidableEq

/-- The value of a named column in a row. -/
def getCol (r : Row) (name : String) : Option String :=
  (r.cols.find? (fun c => c.1 == name)).map (·.2)

/-- `SELECT id FROM table_name WHERE column_name = %s` as issued by
`fetch_id`; like `db.read`, it returns the first matching row's ID. -/
def dbFetch (t : Table) (column_name column_value : String) : Option Nat :=
  (t.rows.find? (fun r => getCol r column_name == some column_value)).map (·.id)

/-- `INSERT INTO table_name ( col_names ) VALUES ( col_values )` as
issued by `get_or_set_id`: append a row with the given column values
under a fresh auto-increment ID. -/
def dbInsert (t : Table) (columns : List (String × String)) : Table :=
  { rows := t.rows ++ [⟨t.next_id, columns⟩], next_id := t.next_id + 1 }

/-- The per-run natural-key cache: a Python dict from key values to IDs. -/
abbrev Cache := List (String × Nat)

/-- Dict lookup (`column_value in cache` / `cache[column_value]`). -/
def Cache.lookup (c : Cache) (k : String) : Option Nat :=
  (List.find? (fun e => e.1 == k) c).map (·.2)

/-- Dict assignment (`cache[column_value] = item_id`). -/
def Cache.set (c : Cache) (k : String) (v : Nat) : Cache :=
  (k, v) :: List.filter (fun e => e.1 != k) c

/-- `DBConnection.fetch_id` on an online connection, with a cache
dictionary supplied.  Returns the result, the updated cache, and the
number of SELECT queries issued: the cache is consulted first; on a
cache miss the database is queried and, on a hit, the cache is extended
with the key-to-ID mapping. -/
def fetch_id (t : Table) (column_name column_value : String) (cache : Cache) :
    Option Nat × Cache × Nat :=
  match cache.lookup column_value with
  | some v => (some v, cache, 0)
  | none =>
    match dbFetch t column_name column_value with
    | some i => (some i, cache.set column_value i, 1)
    | none => (none, cache, 1)

/-- `DBConnection.fetch_id` on an online connection with `cache=None`. -/
def fetch_id_nocache (t : Table) (column_name column_value : String) :
    Option Nat :=
  dbFetch t column_name column_value

/-- The cache agrees with the database when every cached ID is the one
the key's SELECT would return. -/
def cacheAgrees (t : Table) (column_name : String)
    (cache : Cache) : Prop :=
  ∀ k v, cache.lookup k = some v →
    dbFetch t column_name k = some v

/-- The mode flags of a `DBConnection` (`offline`, `_db_write`). -/
structure Conn where
  offline : Bool
  db_write : Bool
deriving DecidableEq

/-- `DBConnection.write`: when `_db_write` is false the statement is not
executed and `0` is returned; otherwise the statement's effect `eff`
(its action on the table and its affected-row count) takes place. -/
def write (c : Conn) (t : Table) (eff : Table → Table × Nat) : Table × Nat :=
  if c.db_write then eff t else (t, 0)

/-- The ways `get_or_set_id` can raise: a missing `key_name` in the
column dictionary (Python `KeyError`), or `ORIALookupError` when the
row can be neither found nor created. -/
inductive GosError
  | keyError
  | oriaLookupError
deriving DecidableEq

/-- What `get_or_set_id` produces on success: the returned ID, and the
cache and table as left behind. -/
structure GosResult where
  id : Nat
  cache : Cache
  table : Table
deriving DecidableEq

/-- `DBConnection.get_or_set_id`, translated branch by branch:
check the cache; if online, check the database and cache a hit; if
read-only (`db_write = false`), fake the write by assigning sequential
surrogate IDs tracked under the reserved cache key `"NEXT_ID"`;
otherwise insert the column values, re-fetch the ID, and raise
`ORIALookupError` if it still cannot be found. -/
def get_or_set_id (c : Conn) (cache : Cache) (t : Table)
    (key_name : String) (columns : List (String × String)) :
    Except GosError GosResult :=
  match (columns.find? (fun e => e.1 == key_name)).map (·.2) with
  | none => .error .keyError
  | some key_value =>
    match cache.lookup key_value with
    | some v => .ok ⟨v, cache, t⟩
    | none =>
      match if c.offline then none else dbFetch t key_name key_value with
      | some i => .ok ⟨i, cache.set key_value i, t⟩
      | none =>
        if c.db_write then
          let t1 := dbInsert t columns
          match dbFetch t1 key_name key_value with
          | some i => .ok ⟨i, cache.set key_value i, t1⟩
          | none => .error .oriaLookupError
        else
          let c0 := if (cache.lookup "NEXT_ID").isNone
                    then cache.set "NEXT_ID" 1 else cache
          let n := (c0.lookup "NEXT_ID").getD 0
          let c2 := (c0.set key_value n).set "NEXT_ID" (n + 1)
          .ok ⟨(c2.lookup key_value).getD 0, c2, t⟩

end Oria

namespace Master

/-- A row of `master_external_org`: the organization's surrogate ID, its
name and category flags, source attribution, and the temporal validity
end (`none` = `valid_end IS NULL` = currently valid). -/
structure OrgRow where
  id : Nat
  name : String
  educational : Bool
  business : Bool
  nonprofit : Bool
  government : Bool
  source : Nat
  source_comment : Option String
  valid_end : Option Nat
deriving DecidableEq

/-- A row of `master_external_org_alias`. -/
structure AliasRow where
  external_org : Nat
  alias_col : String
  lang : String
  source : Nat
  source_comment : Option String
  valid_end : Option Nat
deriving DecidableEq

/-- A row of `master_external_org_other_id`. -/
structure OtherIdRow where
  master_id : Nat
  other_id : String
  scheme : Nat
  source : Nat
  source_comment : Option String
  valid_end : Option Nat
deriving DecidableEq

/-- A row of `master_external_org_postcode`. -/
structure PostcodeRow where
  external_org : Nat
  postcode : Nat
  source : Nat
  source_comment : Option String
  valid_end : Option Nat
deriving DecidableEq

/-- A row of `master_rel_external_external`. -/
structure RelRow where
  ext1 : Nat
  ext2 : Nat
  rel : Nat
  source : Nat
  source_comment : Option String
  valid_end : Option Nat
deriving DecidableEq

/-- The external-organization tables of the entity master, plus the
auto-increment counter of `master_external_org`. -/
structure MasterDB where
  orgs : List OrgRow
  aliases : List AliasRow
  other_ids : List OtherIdRow
  postcodes : List PostcodeRow
  rels : List RelRow
  next_org_id : Nat
deriving DecidableEq

/-- The `[, source_comment = %s]` part of the expiring UPDATE
statements: the comment is updated only when one was given. -/
def updComment (comment old : Option String) : Option String :=
  match comment with
  | some c => some c
  | none => old

/-- Natural key of `master_external_org_alias`
(`external_org`, `alias`, `lang`): per the docstring of
`add_external_org_alias`, an `INSERT IGNORE` of an alias already
asserted in that language does nothing, even if that alias is expired. -/
def sameAliasKey (r s : AliasRow) : Bool :=
  r.external_org == s.external_org && r.alias_col == s.alias_col && r.lang == s.lang

/-- Natural key of `master_external_org_other_id`
(`master_id`, `other_id`, `scheme`). -/
def sameOtherIdKey (r s : OtherIdRow) : Bool :=
  r.master_id == s.master_id && r.other_id == s.other_id &&
    r.scheme == s.scheme

/-- Natural key of `master_external_org_postcode`
(`external_org`, `postcode`). -/
def samePostcodeKey (r s : PostcodeRow) : Bool :=
  r.external_org == s.external_org && r.postcode == s.postcode

/-- Natural key of `master_rel_external_external`
(`ext1`, `ext2`, `rel`). -/
def sameRelKey (r s : RelRow) : Bool :=
  r.ext1 == s.ext1 && r.ext2 == s.ext2 && r.rel == s.rel

/-- `INSERT IGNORE` into the alias table. -/
def insertIgnoreAlias (t : List AliasRow) (r : AliasRow) : List AliasRow :=
  if t.any (sameAliasKey r) then t else t ++ [r]

/-- `INSERT IGNORE` into the other-ID table. -/
def insertIgnoreOtherId (t : List OtherIdRow) (r : OtherIdRow) :
    List OtherIdRow :=
  if t.any (sameOtherIdKey r) then t else t ++ [r]

/-- `INSERT IGNORE` into the postcode table. -/
def insertIgnorePostcode (t : List PostcodeRow) (r : PostcodeRow) :
    List PostcodeRow :=
  if t.any (samePostcodeKey r) then t else t ++ [r]

/-- `INSERT IGNORE` into the relationship table. -/
def insertIgnoreRel (t : List RelRow) (r : RelRow) : List RelRow :=
  if t.any (sameRelKey r) then t else t ++ [r]

/-- `add_external_org` (`master.py`): INSERT a new organization row and
return `LAST_INSERT_ID()`. -/
def add_external_org (db : MasterDB) (name : String) (source_id : Nat)
    (comment : Option String) (edu biz org gov : Bool) :
    MasterDB × Nat :=
  ({ db with
      orgs := db.orgs ++
        [⟨db.next_org_id, name, edu, biz, org, gov, source_id, comment,
          none⟩],
      next_org_id := db.next_org_id + 1 },
   db.next_org_id)

/-- `add_external_org_alias` (`master.py`): `INSERT IGNORE` a fresh,
valid alias assertion. -/
def add_external_org_alias (db : MasterDB) (org_id : Nat) (al : String)
    (source_id : Nat) (lang : String) (comment : Option String) :
    MasterDB :=
  let r : AliasRow := ⟨org_id, al, lang, source_id, comment, none⟩
  { db with aliases := insertIgnoreAlias db.aliases r }

/-- `add_external_org_other_id` (`master.py`): `INSERT IGNORE` a fresh,
valid other-ID assertion. -/
def add_external_org_other_id (db : MasterDB) (org_id : Nat)
    (other_id : String) (scheme_id source_id : Nat)
    (comment : Option String) : MasterDB :=
  let r : OtherIdRow := ⟨org_id, other_id, scheme_id, source_id, comment, none⟩
  { db with other_ids := insertIgnoreOtherId db.other_ids r }

/-- `add_external_org_postcode` (`master.py`). -/
def add_external_org_postcode (db : MasterDB) (org_id postcode_id : Nat)
    (source_id : Nat) (comment : Option String) : MasterDB :=
  let r : PostcodeRow := ⟨org_id, postcode_id, source_id, comment, none⟩
  { db with postcodes := insertIgnorePostcode db.postcodes r }

/-- `add_external_org_relationship` (`master.py`). -/
def add_external_org_relationship (db : MasterDB)
    (org_1_id org_2_id rel_type_id source_id : Nat)
    (comment : Option String) : MasterDB :=
  let r : RelRow := ⟨org_1_id, org_2_id, rel_type_id, source_id, comment, none⟩
  { db with rels := insertIgnoreRel db.rels r }

/-- WHERE clause of `del_external_org_alias`: active rows of the
organization, restricted to one alias/language pair unless the alias is
the wildcard `'*'`. -/
def delAliasMatch (org_id : Nat) (al lang : String) (r : AliasRow) :
    Bool :=
  r.external_org == org_id && r.valid_end.isNone &&
    (al == "*" || (r.alias_col == al && r.lang == lang))

/-- `del_external_org_alias` (`master.py`): read for a matching active
row; if none, return unchanged; otherwise expire every matching row,
setting `valid_end = NOW()`, the source, and (only if given) the
comment. -/
def del_external_org_alias (db : MasterDB) (org_id : Nat) (al : String)
    (source_id : Nat) (lang : String) (comment : Option String)
    (now : Nat) : MasterDB :=
  if db.aliases.any (delAliasMatch org_id al lang) then
    { db with aliases := db.aliases.map (fun r =>
        if delAliasMatch org_id al lang r then
          { r with valid_end := some now, source := source_id,
                   source_comment := updComment comment r.source_comment }
        else r) }
  else db

/-- WHERE clause of `del_external_org_other_id`: active rows of the
organization, restricted to one other-ID/scheme pair unless the
other-ID is the wildcard `'*'` (the scheme is `None` in the wildcard
calls, so it is modelled as an `Option`). -/
def delOtherIdMatch (org_id : Nat) (other_id : String)
    (scheme_id : Option Nat) (r : OtherIdRow) : Bool :=
  r.master_id == org_id && r.valid_end.isNone &&
    (other_id == "*" ||
      (r.other_id == other_id && some r.scheme == scheme_id))

/-- `del_external_org_other_id` (`master.py`). -/
def del_external_org_other_id (db : MasterDB) (org_id : Nat)
    (other_id : String) (scheme_id : Option Nat) (source_id : Nat)
    (comment : Option String) (now : Nat) : MasterDB :=
  if db.other_ids.any (delOtherIdMatch org_id other_id scheme_id) then
    { db with other_ids := db.other_ids.map (fun r =>
        if delOtherIdMatch org_id other_id scheme_id r then
          { r with valid_end := some now, source := source_id,
                   source_comment := updComment comment r.source_comment }
        else r) }
  else db

/-- The row produced by `del_external_org_other_id`'s UPDATE on a
matching row: `valid_end = NOW()`, the removal's source, and the
comment only when one was given. -/
def expireOtherIdRow (source_id : Nat) (comment : Option String)
    (now : Nat) (old : OtherIdRow) : OtherIdRow :=
  { old with valid_end := some now, source := source_id,
             source_comment := updComment comment old.source_comment }

/-- WHERE clause of `del_external_org_postcode`; `none` stands for the
wildcard `'*'`. -/
def delPostcodeMatch (org_id : Nat) (postcode_id : Option Nat)
    (r : PostcodeRow) : Bool :=
  r.external_org == org_id && r.valid_end.isNone &&
    (match postcode_id with
     | none => true
     | some p => r.postcode == p)

/-- `del_external_org_postcode` (`master.py`). -/
def del_external_org_postcode (db : MasterDB) (org_id : Nat)
    (postcode_id : Option Nat) (source_id : Nat)
    (comment : Option String) (now : Nat) : MasterDB :=
  if db.postcodes.any (delPostcodeMatch org_id postcode_id) then
    { db with postcodes := db.postcodes.map (fun r =>
        if delPostcodeMatch org_id postcode_id r then
          { r with valid_end := some now, source := source_id,
                   source_comment := updComment comment r.source_comment }
        else r) }
  else db

/-- WHERE clause of `del_external_org_relationship`: with the wildcard
(`org_2_id = none`, i.e. `'*'`), every active relationship the
organization participates in on either end; otherwise one directed
relationship triple. -/
def delRelMatch (org_1_id : Nat) (org_2_id rel_type_id : Option Nat)
    (r : RelRow) : Bool :=
  (match org_2_id with
   | none => r.ext1 == org_1_id || r.ext2 == org_1_id
   | some o2 =>
     r.ext1 == org_1_id && r.ext2 == o2 && some r.rel == rel_type_id) &&
  r.valid_end.isNone

/-- `del_external_org_relationship` (`master.py`). -/
def del_external_org_relationship (db : MasterDB) (org_1_id : Nat)
    (org_2_id rel_type_id : Option Nat) (source_id : Nat)
    (comment : Option String) (now : Nat) : MasterDB :=
  if db.rels.any (delRelMatch org_1_id org_2_id rel_type_id) then
    { db with rels := db.rels.map (fun r =>
        if delRelMatch org_1_id org_2_id rel_type_id r then
          { r with valid_end := some now, source := source_id,
                   source_comment := updComment comment r.source_comment }
        else r) }
  else db

/-- `del_external_org` (`master.py`): look the organization up by ID
(with no validity filter); if absent, return unchanged.  Otherwise
expire all of its other-IDs, postcodes, relationships and aliases (in
that order), then run the organization's own UPDATE — whose WHERE
clause in the source reads `id = %s AND valid_end IS NOT NULL`, so it
touches only rows that are already expired. -/
def del_external_org (db : MasterDB) (org_id source_id : Nat)
    (comment : Option String) (now : Nat) : MasterDB :=
  if db.orgs.any (fun r => r.id == org_id) then
    let db1 := del_external_org_other_id db org_id "*" none source_id
                 comment now
    let db2 := del_external_org_postcode db1 org_id none source_id
                 comment now
    let db3 := del_external_org_relationship db2 org_id none none
                 source_id comment now
    let db4 := del_external_org_alias db3 org_id "*" source_id "en"
                 comment now
    { db4 with orgs := db4.orgs.map (fun r =>
        if r.id == org_id && !r.valid_end.isNone then
          { r with valid_end := some now, source := source_id,
                   source_comment := updComment comment r.source_comment }
        else r) }
  else db

/-- `merge_external_org` (`master.py`): four `INSERT IGNORE … SELECT`
statements copy the losing organization's active aliases, other-IDs,
postcodes and relationships onto the keeping organization (relationship
rows between the two are excluded, and copied rows keep their original
source and comment); then `del_external_org` expires the loser.  The
`INSERT … SELECT`s are modelled as a fold over the selected rows, and
the second relationship statement selects from the table as left by the
first. -/
def merge_external_org (db : MasterDB) (keep_id lose_id source_id : Nat)
    (comment : Option String) (now : Nat) : MasterDB :=
  let aliasSel := db.aliases.filter
    (fun r => r.external_org == lose_id && r.valid_end.isNone)
  let aliases1 := aliasSel.foldl
    (fun t r => insertIgnoreAlias t { r with external_org := keep_id })
    db.aliases
  let idSel := db.other_ids.filter
    (fun r => r.master_id == lose_id && r.valid_end.isNone)
  let ids1 := idSel.foldl
    (fun t r => insertIgnoreOtherId t { r with master_id := keep_id })
    db.other_ids
  let postSel := db.postcodes.filter
    (fun r => r.external_org == lose_id && r.valid_end.isNone)
  let posts1 := postSel.foldl
    (fun t r => insertIgnorePostcode t { r with external_org := keep_id })
    db.postcodes
  let rel1Sel := db.rels.filter
    (fun r => r.ext1 == lose_id && r.ext2 != keep_id &&
      r.valid_end.isNone)
  let rels1 := rel1Sel.foldl
    (fun t r => insertIgnoreRel t { r with ext1 := keep_id }) db.rels
  let rel2Sel := rels1.filter
    (fun r => r.ext2 == lose_id && r.ext1 != keep_id &&
      r.valid_end.isNone)
  let rels2 := rel2Sel.foldl
    (fun t r => insertIgnoreRel t { r with ext2 := keep_id }) rels1
  let db1 := { db with aliases := aliases1, other_ids := ids1,
                       postcodes := posts1, rels := rels2 }
  del_external_org db1 lose_id source_id comment now

/-- `rename_external_org` (`master.py`): read the organization's name
(no validity filter; `none` models the `MasterNonExistentEntity`
raise), UPDATE the name in place, and optionally re-assert the old name
as an alias. -/
def rename_external_org (db : MasterDB) (org_id : Nat)
    (new_name : String) (source_id : Nat) (comment : Option String)
    (alias_old_name : Bool) (old_name_lang : String) :
    Option MasterDB :=
  match db.orgs.find? (fun r => r.id == org_id) with
  | none => none
  | some row =>
    let old_name := row.name
    let db1 := { db with orgs := db.orgs.map (fun r =>
        if r.id == org_id then { r with name := new_name } else r) }
    if alias_old_name then
      some (add_external_org_alias db1 org_id old_name source_id
              old_name_lang comment)
    else
      some db1

/-- `get_master_id_for_other_id` (`master.py`): look up the
(`other_id`, `scheme`) pair — note: with no `valid_end` filter — and
return the first matching row's `master_id`. -/
def get_master_id_for_other_id (db : MasterDB) (other_id : String)
    (scheme_id : Nat) : Option Nat :=
  (db.other_ids.find?
    (fun r => r.other_id == other_id && r.scheme == scheme_id)).map
    (·.master_id)

/-- "One active row per natural key" on the other-ID table: no two
distinct rows with the same (`master_id`, `other_id`, `scheme`) key are
both active (`valid_end IS NULL`). -/
def OneActivePerKey (t : List OtherIdRow) : Prop :=
  t.Pairwise (fun r s =>
    ¬(r.valid_end = none ∧ s.valid_end = none ∧ sameOtherIdKey r s = true))

/-- The data columns of a `master_external_org` row other than
`valid_end`, `source` and `source_comment`. -/
def orgData (r : OrgRow) : Nat × String × Bool × Bool × Bool × Bool :=
  (r.id, r.name, r.educational, r.business, r.nonprofit, r.government)

/-- The data columns of an alias row other than `valid_end`, `source`
and `source_comment`. -/
def aliasData (r : AliasRow) : Nat × String × String :=
  (r.external_org, r.alias_col, r.lang)

/-- The data columns of an other-ID row other than `valid_end`,
`source` and `source_comment`. -/
def otherIdData (r : OtherIdRow) : Nat × String × Nat :=
  (r.master_id, r.other_id, r.scheme)

/-- The data columns of a postcode row other than `valid_end`, `source`
and `source_comment`. -/
def postcodeData (r : PostcodeRow) : Nat × Nat :=
  (r.external_org, r.postcode)

/-- The data columns of a relationship row other than `valid_end`,
`source` and `source_comment`. -/
def relData (r : RelRow) : Nat × Nat × Nat :=
  (r.ext1, r.ext2, r.rel)

/-- Frame condition for one table: every pre-existing row is still at
its index with its data columns (everything but `valid_end`, `source`,
`source_comment`) unchanged; rows may only have been appended after
them. -/
def TableFrame {R D : Type} (data : R → D) (t t' : List R) : Prop :=
  ∃ ext, t'.map data = t.map data ++ ext

/-- Frame condition for the whole entity master: `TableFrame` on each
of the five tables. -/
def DBFrame (db db' : MasterDB) : Prop :=
  TableFrame orgData db.orgs db'.orgs ∧
  TableFrame aliasData db.aliases db'.aliases ∧
  TableFrame otherIdData db.other_ids db'.other_ids ∧
  TableFrame postcodeData db.postcodes db'.postcodes ∧
  TableFrame relData db.rels db'.rels

/-- The update operations of the entity-master library (`master.py`). -/
inductive MasterOp
  | addOrg (name : String) (source_id : Nat) (comment : Option String)
      (edu biz org gov : Bool)
  | addAlias (org_id : Nat) (al : String) (source_id : Nat)
      (lang : String) (comment : Option String)
  | addOtherId (org_id : Nat) (other_id : String)
      (scheme_id source_id : Nat) (comment : Option String)
  | addPostcode (org_id postcode_id source_id : Nat)
      (comment : Option String)
  | addRel (org_1_id org_2_id rel_type_id source_id : Nat)
      (comment : Option String)
  | delOrg (org_id source_id : Nat) (comment : Option String) (now : Nat)
  | delAlias (org_id : Nat) (al : String) (source_id : Nat)
      (lang : String) (comment : Option String) (now : Nat)
  | delOtherId (org_id : Nat) (other_id : String)
      (scheme_id : Option Nat) (source_id : Nat)
      (comment : Option String) (now : Nat)
  | delPostcode (org_id : Nat) (postcode_id : Option Nat)
      (source_id : Nat) (comment : Option String) (now : Nat)
  | delRel (org_1_id : Nat) (org_2_id rel_type_id : Option Nat)
      (source_id : Nat) (comment : Option String) (now : Nat)
  | mergeOrgs (keep_id lose_id source_id : Nat)
      (comment : Option String) (now : Nat)
  | renameOrg (org_id : Nat) (new_name : String) (source_id : Nat)
      (comment : Option String) (alias_old_name : Bool)
      (old_name_lang : String)

/-- Whether an operation is the in-place `rename_external_org`. -/
def MasterOp.isRename : MasterOp → Bool
  | .renameOrg _ _ _ _ _ _ => true
  | _ => false

/-- Run one entity-master operation on the database state.  A raising
`rename_external_org` (unknown organization) leaves the state
unchanged, as the exception fires before any write. -/
def applyMasterOp (db : MasterDB) : MasterOp → MasterDB
  | .addOrg n src c e b o g => (add_external_org db n src c e b o g).1
  | .addAlias o a src l c => add_external_org_alias db o a src l c
  | .addOtherId o i sch src c =>
      add_external_org_other_id db o i sch src c
  | .addPostcode o p src c => add_external_org_postcode db o p src c
  | .addRel o1 o2 rt src c =>
      add_external_org_relationship db o1 o2 rt src c
  | .delOrg o src c n => del_external_org db o src c n
  | .delAlias o a src l c n => del_external_org_alias db o a src l c n
  | .delOtherId o i sch src c n =>
      del_external_org_other_id db o i sch src c n
  | .delPostcode o p src c n =>
      del_external_org_postcode db o p src c n
  | .delRel o1 o2 rt src c n =>
      del_external_org_relationship db o1 o2 rt src c n
  | .mergeOrgs k l src c n => merge_external_org db k l src c n
  | .renameOrg o nm src c a lg =>
      match rename_external_org db o nm src c a lg with
      | some db' => db'
      | none => db

/-- Run a sequence of entity-master operations, oldest first. -/
def applyMasterOps (db : MasterDB) (ops : List MasterOp) : MasterDB :=
  ops.foldl applyMasterOp db

end Master

/-! ## Theorems -/

/-- Exact behaviour of the `read_many` page loop: with enough fuel, the
loop starting at `offset` yields exactly the result rows from `offset`
on (each page a `LIMIT PAGESIZE OFFSET offset` slice), and issues one
page query per full or partial page plus the final empty-page query on
which it stops. -/
theorem Oria.read_many_loop_eq {α : Type} (rows : List α)
    (fuel offset : Nat)
    (hfuel : (rows.length - offset + Oria.PAGESIZE - 1) / Oria.PAGESIZE
        + 1 ≤ fuel) :
    Oria.read_many_loop rows fuel offset =
      (rows.drop offset,
       (rows.length - offset + Oria.PAGESIZE - 1) / Oria.PAGESIZE + 1) := by
  induction fuel generalizing offset with
  | zero => simp only [Oria.PAGESIZE] at hfuel; omega
  | succ fuel ih =>
    rw [Oria.read_many_loop]
    cases h : Oria.page rows offset with
    | nil =>
      have hd : rows.drop offset = [] := by
        have h' := h
        simp only [Oria.page, List.take_eq_nil_iff] at h'
        rcases h' with h' | h'
        · exact absurd h' (by simp [Oria.PAGESIZE])
        · exact h'
      have hlen : rows.length ≤ offset := by
        have := congrArg List.length hd
        simp at this
        omega
      have hz : rows.length - offset = 0 := Nat.sub_eq_zero_of_le hlen
      rw [hd, hz]
      norm_num [Oria.PAGESIZE]
    | cons a p =>
      have hlt : offset < rows.length := by
        by_contra hge
        have hd : rows.drop offset = [] :=
          List.drop_eq_nil_of_le (by omega)
        simp [Oria.page, hd] at h
      have hih := ih (offset + Oria.PAGESIZE)
        (by simp only [Oria.PAGESIZE] at hfuel ⊢; omega)
      rw [hih]
      simp only [Prod.mk.injEq]
      constructor
      · have hdd : rows.drop (offset + Oria.PAGESIZE) =
            (rows.drop offset).drop Oria.PAGESIZE := by
          rw [List.drop_drop, Nat.add_comm]
        have hpage : (rows.drop offset).take Oria.PAGESIZE = a :: p := h
        rw [hdd, ← hpage, List.take_append_drop]
      · simp only [Oria.PAGESIZE] at hlt ⊢
        omega

/-- C7: on an online connection, `read_many` yields exactly the rows of
the statement's result set, each once and in order; it issues one
`LIMIT PAGESIZE OFFSET` query per page of at most `PAGESIZE` rows plus
the final query that returns no rows, on which it terminates; on an
offline connection it yields no rows and queries nothing. -/
theorem Oria.read_many_spec {α : Type} (rows : List α) :
    (Oria.read_many false rows).1 = rows ∧
    (Oria.read_many false rows).2 =
      (rows.length + Oria.PAGESIZE - 1) / Oria.PAGESIZE + 1 ∧
    (∀ offset, (Oria.page rows offset).length ≤ Oria.PAGESIZE) ∧
    Oria.read_many true rows = ([], 0) := by
  have h := Oria.read_many_loop_eq rows (rows.length + 1) 0
    (by simp only [Oria.PAGESIZE]; omega)
  refine ⟨?_, ?_, ?_, ?_⟩
  · simp [Oria.read_many, h]
  · simp [Oria.read_many, h]
  · intro offset
    exact List.length_take_le _ _
  · simp [Oria.read_many]

/-- C8: for every accepted key `1 ≤ key ≤ KEY_MAX` and every data row,
the row loop of `protect_faculty_ids.py` emits as the first field the
integer value of the row's (stripped) first column XOR the key — an
involution, so XOR with the same key recovers the original ID — drops
the second column, and passes the remaining columns through stripped of
surrounding whitespace. -/
theorem ProtectFacultyIds.protect_row_xor_involution
    (key : Nat) (hk1 : 1 ≤ key) (hk2 : key ≤ ProtectFacultyIds.KEY_MAX)
    (c0 : String) (rest : List String) (edw_id : Nat)
    (hparse : ProtectFacultyIds.pyInt (ProtectFacultyIds.pyStrip c0) =
      some edw_id) :
    ProtectFacultyIds.protect_row key (c0 :: rest) =
      some (edw_id ^^^ key,
            ((c0 :: rest).map ProtectFacultyIds.pyStrip).drop 2) ∧
    (edw_id ^^^ key) ^^^ key = edw_id := by
  constructor
  · simp [ProtectFacultyIds.protect_row, hparse]
  · rw [Nat.xor_assoc, Nat.xor_self, Nat.xor_zero]

/-- Witness for C8 at a concrete key and row. -/
theorem ProtectFacultyIds.protect_row_xor_involution_witness :
    ProtectFacultyIds.protect_row 5 (" 123 " :: ["9876", " x "]) =
      some (123 ^^^ 5,
            ((" 123 " :: ["9876", " x "]).map
              ProtectFacultyIds.pyStrip).drop 2) ∧
    (123 ^^^ 5) ^^^ 5 = 123 :=
  ProtectFacultyIds.protect_row_xor_involution 5 (by decide) (by decide)
    " 123 " ["9876", " x "] 123 (by decide)

/-- C10: `get_master_id_for_other_id` matches the (`other_id`,
`scheme`) pair with no `valid_end` filter: in this state the only
matching assertion is expired, yet the lookup returns its `master_id`,
while the delete helper for the same key — which matches only
`valid_end IS NULL` rows — finds nothing to expire. -/
theorem Master.get_master_id_ignores_validity :
    (Master.get_master_id_for_other_id
        ⟨[], [], [⟨7, "X", 3, 1, none, some 5⟩], [], [], 0⟩ "X" 3
      = some 7) ∧
    (∀ s ∈ (⟨[], [], [⟨7, "X", 3, 1, none, some 5⟩], [], [], 0⟩ :
        Master.MasterDB).other_ids, s.valid_end ≠ none) ∧
    (Master.del_external_org_other_id
        ⟨[], [], [⟨7, "X", 3, 1, none, some 5⟩], [], [], 0⟩
        7 "X" (some 3) 1 none 9
      = ⟨[], [], [⟨7, "X", 3, 1, none, some 5⟩], [], [], 0⟩) := by
  decide

/-- C1 (evidence of the code bug): with organization 1 present and
active and owning an active other-ID assertion, `del_external_org`
expires the properties but leaves the `master_external_org` row itself
untouched — still `valid_end IS NULL` — because its final UPDATE's
WHERE clause reads `valid_end IS NOT NULL`. -/
theorem Master.del_external_org_leaves_org_active :
    (Master.del_external_org
        ⟨[⟨1, "Acme", false, true, false, false, 4, none, none⟩],
         [], [⟨1, "D-1", 2, 4, none, none⟩], [], [], 2⟩ 1 9 none 77) =
      ⟨[⟨1, "Acme", false, true, false, false, 4, none, none⟩],
       [], [⟨1, "D-1", 2, 9, none, some 77⟩], [], [], 2⟩ := by
  decide

/-- C6 (evidence of the code bug it inherits): merging organization 2
into organization 1 copies the loser's active alias, other-ID, postcode
and non-mutual relationship onto organization 1 with their original
source (6) kept, expires the loser's properties — including the 1–2
relationship, which is not copied — with the supplied source (9), but
leaves the losing organization's own `master_external_org` row active
(`valid_end` still `NULL`), because `del_external_org`'s final UPDATE
requires `valid_end IS NOT NULL`. -/
theorem Master.merge_external_org_leaves_loser_active :
    (Master.merge_external_org
        ⟨[⟨1, "Keep", false, false, false, false, 4, none, none⟩,
          ⟨2, "Lose", false, false, false, false, 4, none, none⟩],
         [⟨2, "L.A.", "en", 6, some "c", none⟩],
         [⟨2, "D-9", 3, 6, none, none⟩],
         [⟨2, 42, 6, none, none⟩],
         [⟨1, 2, 5, 6, none, none⟩, ⟨2, 3, 5, 6, none, none⟩],
         3⟩ 1 2 9 none 77) =
      ⟨[⟨1, "Keep", false, false, false, false, 4, none, none⟩,
        ⟨2, "Lose", false, false, false, false, 4, none, none⟩],
       [⟨2, "L.A.", "en", 9, some "c", some 77⟩,
        ⟨1, "L.A.", "en", 6, some "c", none⟩],
       [⟨2, "D-9", 3, 9, none, some 77⟩, ⟨1, "D-9", 3, 6, none, none⟩],
       [⟨2, 42, 9, none, some 77⟩, ⟨1, 42, 6, none, none⟩],
       [⟨1, 2, 5, 9, none, some 77⟩, ⟨2, 3, 5, 9, none, some 77⟩,
        ⟨1, 3, 5, 6, none, none⟩],
       3⟩ := by
  decide

/-- Setting a key in the cache makes it immediately visible. -/
theorem Oria.Cache.lookup_set (c : Oria.Cache) (k : String) (v : Nat) :
    (c.set k v).lookup k = some v := by
  simp [Oria.Cache.lookup, Oria.Cache.set]

/-- Setting a key in the cache leaves other keys unchanged. -/
theorem Oria.Cache.lookup_set_ne (c : Oria.Cache) (k k' : String)
    (v : Nat) (h : k' ≠ k) : (c.set k v).lookup k' = c.lookup k' := by
  induction c with
  | nil => simp [Oria.Cache.lookup, Oria.Cache.set, Ne.symm h]
  | cons e c ih =>
    simp only [Oria.Cache.lookup, Oria.Cache.set] at ih ⊢
    by_cases he : e.1 = k
    · rw [List.filter_cons_of_neg (by simp [he])]
      rw [ih]
      have : ¬(e.1 == k') := by simp [he, Ne.symm h]
      simp [List.find?_cons, this]
    · rw [List.filter_cons_of_pos (by simp [he])]
      by_cases he' : e.1 = k'
      · simp [List.find?_cons, he', Ne.symm h]
      · simp only [List.find?_cons] at ih ⊢
        have hk : (e.1 == k') = false := by simp [he']
        have hkk : ((k, v).1 == k') = false := by simp [Ne.symm h]
        simp only [hk, hkk] at ih ⊢
        simpa using ih


/-- C5: the natural-key cache is a transparent memoization.  For a
cache agreeing with the database, `fetch_id` with the cache returns the
same ID (or `none`) as `fetch_id` without one; a key present in the
cache is answered with zero database queries; and after a database hit
the mapping is cached, so repeating the same lookup issues no further
query. -/
theorem Oria.fetch_id_cache_transparent (t : Oria.Table)
    (column_name column_value : String) (cache : Oria.Cache)
    (h : Oria.cacheAgrees t column_name cache) :
    (Oria.fetch_id t column_name column_value cache).1 =
      Oria.fetch_id_nocache t column_name column_value ∧
    (∀ v, cache.lookup column_value = some v →
      (Oria.fetch_id t column_name column_value cache).2.2 = 0) ∧
    (∀ i, Oria.dbFetch t column_name column_value = some i →
      ((Oria.fetch_id t column_name column_value cache).2.1).lookup
          column_value = some i ∧
      (Oria.fetch_id t column_name column_value
        (Oria.fetch_id t column_name column_value cache).2.1).2.2 = 0) := by
  cases hc : cache.lookup column_value with
  | some v =>
    have hdb := h column_value v hc
    refine ⟨?_, ?_, ?_⟩
    · simp [Oria.fetch_id, Oria.fetch_id_nocache, hc, hdb]
    · intro v' _
      simp [Oria.fetch_id, hc]
    · intro i hi
      rw [hdb] at hi
      cases hi
      simp [Oria.fetch_id, hc]
  | none =>
    cases hdb : Oria.dbFetch t column_name column_value with
    | some i =>
      refine ⟨?_, ?_, ?_⟩
      · simp [Oria.fetch_id, Oria.fetch_id_nocache, hc, hdb]
      · intro v' hv'
        cases hv'
      · intro i' hi'
        cases hi'
        have hcache' : (Oria.fetch_id t column_name column_value
            cache).2.1 = cache.set column_value i := by
          simp [Oria.fetch_id, hc, hdb]
        rw [hcache']
        refine ⟨Oria.Cache.lookup_set cache column_value i, ?_⟩
        simp [Oria.fetch_id, Oria.Cache.lookup_set]
    | none =>
      refine ⟨?_, ?_, ?_⟩
      · simp [Oria.fetch_id, Oria.fetch_id_nocache, hc, hdb]
      · intro v' hv'
        cases hv'
      · intro i' hi'
        cases hi'

/-- Witness for C5: one-row table, empty (hence agreeing) cache. -/
theorem Oria.fetch_id_cache_transparent_witness :
    (Oria.fetch_id ⟨[⟨1, [("code", "A")]⟩], 2⟩ "code" "A" []).1 =
      Oria.fetch_id_nocache ⟨[⟨1, [("code", "A")]⟩], 2⟩ "code" "A" ∧
    (∀ v, Oria.Cache.lookup [] "A" = some v →
      (Oria.fetch_id ⟨[⟨1, [("code", "A")]⟩], 2⟩ "code" "A" []).2.2 = 0) ∧
    (∀ i, Oria.dbFetch ⟨[⟨1, [("code", "A")]⟩], 2⟩ "code" "A" = some i →
      ((Oria.fetch_id ⟨[⟨1, [("code", "A")]⟩], 2⟩ "code" "A"
          []).2.1).lookup "A" = some i ∧
      (Oria.fetch_id ⟨[⟨1, [("code", "A")]⟩], 2⟩ "code" "A"
        (Oria.fetch_id ⟨[⟨1, [("code", "A")]⟩], 2⟩ "code" "A"
          []).2.1).2.2 = 0) :=
  Oria.fetch_id_cache_transparent ⟨[⟨1, [("code", "A")]⟩], 2⟩ "code" "A"
    [] (fun k v hkv => by simp [Oria.Cache.lookup] at hkv)

/-- After inserting the column dictionary into a table with no row for
the key, the key's SELECT finds exactly the newly inserted row and
returns its fresh auto-increment ID. -/
theorem Oria.dbFetch_insert (t : Oria.Table)
    (columns : List (String × String)) (key_name key_value : String)
    (hkey : (columns.find? (fun e => e.1 == key_name)).map (·.2) =
      some key_value)
    (hmiss : Oria.dbFetch t key_name key_value = none) :
    Oria.dbFetch (Oria.dbInsert t columns) key_name key_value =
      some t.next_id := by
  have h1 : t.rows.find?
      (fun r => Oria.getCol r key_name == some key_value) = none :=
    Option.map_eq_none'.mp hmiss
  have h2 : Oria.getCol ⟨t.next_id, columns⟩ key_name = some key_value := by
    simp only [Oria.getCol]
    exact hkey
  simp [Oria.dbFetch, Oria.dbInsert, List.find?_append, h1,
        List.find?_cons, h2]

/-- C4: on an online, writable connection, with the key column present
in the column dictionary and not yet cached, `get_or_set_id` returns
the existing row's ID when the key's SELECT finds one (leaving the
table unchanged), and otherwise inserts a row with exactly the given
column values and returns the new row's ID; in both cases the
key-to-ID mapping is recorded in the supplied cache, and no
`ORIALookupError` escapes. -/
theorem Oria.get_or_set_id_spec (t : Oria.Table) (cache : Oria.Cache)
    (key_name key_value : String) (columns : List (String × String))
    (hkey : (columns.find? (fun e => e.1 == key_name)).map (·.2) =
      some key_value)
    (hcache : cache.lookup key_value = none) :
    (∀ i, Oria.dbFetch t key_name key_value = some i →
      Oria.get_or_set_id ⟨false, true⟩ cache t key_name columns =
        .ok ⟨i, cache.set key_value i, t⟩) ∧
    (Oria.dbFetch t key_name key_value = none →
      Oria.get_or_set_id ⟨false, true⟩ cache t key_name columns =
        .ok ⟨t.next_id, cache.set key_value t.next_id,
             Oria.dbInsert t columns⟩) ∧
    (∀ e, Oria.get_or_set_id ⟨false, true⟩ cache t key_name columns ≠
      .error e) := by
  refine ⟨?_, ?_, ?_⟩
  · intro i hi
    simp [Oria.get_or_set_id, hkey, hcache, hi]
  · intro hmiss
    have hins := Oria.dbFetch_insert t columns key_name key_value hkey
      hmiss
    simp [Oria.get_or_set_id, hkey, hcache, hmiss, hins]
  · intro e
    cases hdb : Oria.dbFetch t key_name key_value with
    | some i =>
      simp [Oria.get_or_set_id, hkey, hcache, hdb]
    | none =>
      have hins := Oria.dbFetch_insert t columns key_name key_value
        hkey hdb
      simp [Oria.get_or_set_id, hkey, hcache, hdb, hins]

/-- Witness for C4: an empty table and cache; the key is created. -/
theorem Oria.get_or_set_id_spec_witness :
    (∀ i, Oria.dbFetch ⟨[], 1⟩ "code" "A" = some i →
      Oria.get_or_set_id ⟨false, true⟩ [] ⟨[], 1⟩ "code"
          [("code", "A"), ("name", "Acme")] =
        .ok ⟨i, Oria.Cache.set [] "A" i, ⟨[], 1⟩⟩) ∧
    (Oria.dbFetch ⟨[], 1⟩ "code" "A" = none →
      Oria.get_or_set_id ⟨false, true⟩ [] ⟨[], 1⟩ "code"
          [("code", "A"), ("name", "Acme")] =
        .ok ⟨(⟨[], 1⟩ : Oria.Table).next_id,
             Oria.Cache.set [] "A" (⟨[], 1⟩ : Oria.Table).next_id,
             Oria.dbInsert ⟨[], 1⟩ [("code", "A"), ("name", "Acme")]⟩) ∧
    (∀ e, Oria.get_or_set_id ⟨false, true⟩ [] ⟨[], 1⟩ "code"
        [("code", "A"), ("name", "Acme")] ≠ .error e) :=
  Oria.get_or_set_id_spec ⟨[], 1⟩ [] "code" "A"
    [("code", "A"), ("name", "Acme")] (by decide) (by decide)

/-- C9: with `db_write=False` (test mode) nothing mutates the database:
`write` executes no statement and returns `0`, and `get_or_set_id`
simulates row creation purely in the cache — the new key is assigned
the sequential surrogate ID held under the reserved cache key
`"NEXT_ID"` (starting at `1`), which is then incremented, and the table
is left untouched. -/
theorem Oria.test_mode_no_db_writes (off : Bool) (t : Oria.Table)
    (eff : Oria.Table → Oria.Table × Nat) (cache : Oria.Cache)
    (key_name key_value : String) (columns : List (String × String))
    (hkey : (columns.find? (fun e => e.1 == key_name)).map (·.2) =
      some key_value)
    (hcache : cache.lookup key_value = none)
    (hkv : key_value ≠ "NEXT_ID")
    (hmiss : off = true ∨ Oria.dbFetch t key_name key_value = none) :
    Oria.write ⟨off, false⟩ t eff = (t, 0) ∧
    (∃ res, Oria.get_or_set_id ⟨off, false⟩ cache t key_name columns =
        .ok res ∧
      res.table = t ∧
      res.id = (cache.lookup "NEXT_ID").getD 1 ∧
      res.cache.lookup key_value = some res.id ∧
      res.cache.lookup "NEXT_ID" = some (res.id + 1)) := by
  constructor
  · simp [Oria.write]
  · have hdbhit : (if (⟨off, false⟩ : Oria.Conn).offline then none
        else Oria.dbFetch t key_name key_value) = none := by
      rcases hmiss with hoff | hdb
      · simp [hoff]
      · simp [hdb]
    cases hnid : cache.lookup "NEXT_ID" with
    | none =>
      refine ⟨⟨1, (cache.set "NEXT_ID" 1).set key_value 1
          |>.set "NEXT_ID" 2, t⟩, ?_, rfl, by simp [hnid], ?_, ?_⟩
      · simp only [Oria.get_or_set_id, hkey, hcache, hdbhit, hnid]
        simp [Oria.Cache.lookup_set, Oria.Cache.lookup_set_ne _ _ _ _ hkv]
      · simp [Oria.Cache.lookup_set, Oria.Cache.lookup_set_ne _ _ _ _ hkv]
      · simp [Oria.Cache.lookup_set]
    | some m =>
      refine ⟨⟨m, (cache.set key_value m).set "NEXT_ID" (m + 1), t⟩,
          ?_, rfl, by simp [hnid], ?_, ?_⟩
      · simp only [Oria.get_or_set_id, hkey, hcache, hdbhit, hnid]
        simp [hnid, Oria.Cache.lookup_set,
              Oria.Cache.lookup_set_ne _ _ _ _ hkv]
      · simp [Oria.Cache.lookup_set, Oria.Cache.lookup_set_ne _ _ _ _ hkv]
      · simp [Oria.Cache.lookup_set]

/-- Witness for C9: offline test mode on an empty cache assigns the
first simulated ID, 1. -/
theorem Oria.test_mode_no_db_writes_witness :
    Oria.write ⟨true, false⟩ ⟨[], 5⟩ (fun t => (t, 3)) = (⟨[], 5⟩, 0) ∧
    (∃ res, Oria.get_or_set_id ⟨true, false⟩ [] ⟨[], 5⟩ "code"
        [("code", "A")] = .ok res ∧
      res.table = ⟨[], 5⟩ ∧
      res.id = (Oria.Cache.lookup [] "NEXT_ID").getD 1 ∧
      res.cache.lookup "A" = some res.id ∧
      res.cache.lookup "NEXT_ID" = some (res.id + 1)) :=
  Oria.test_mode_no_db_writes true ⟨[], 5⟩ (fun t => (t, 3)) []
    "code" "A" [("code", "A")] (by decide) (by decide) (by decide)
    (Or.inl rfl)

/-- The other-ID natural key is symmetric. -/
theorem Master.sameOtherIdKey_comm (r s : Master.OtherIdRow)
    (h : Master.sameOtherIdKey r s = true) :
    Master.sameOtherIdKey s r = true := by
  simp only [Master.sameOtherIdKey, Bool.and_eq_true, beq_iff_eq] at h ⊢
  exact ⟨⟨h.1.1.symm, h.1.2.symm⟩, h.2.symm⟩

/-- `INSERT IGNORE` preserves "one active row per natural key": when
the key is already present (active or expired) nothing is inserted, and
otherwise the key was absent altogether. -/
theorem Master.insertIgnoreOtherId_preserves (t : List Master.OtherIdRow)
    (r : Master.OtherIdRow) (h : Master.OneActivePerKey t) :
    Master.OneActivePerKey (Master.insertIgnoreOtherId t r) := by
  unfold Master.insertIgnoreOtherId
  by_cases hany : t.any (Master.sameOtherIdKey r) = true
  · simpa [hany] using h
  · rw [if_neg (by simpa using hany)]
    rw [Master.OneActivePerKey, List.pairwise_append]
    refine ⟨h, List.pairwise_singleton _ _, ?_⟩
    intro a ha b hb
    have hb' : b = r := by simpa using hb
    subst hb'
    rintro ⟨-, -, hkey⟩
    have : Master.sameOtherIdKey b a = true :=
      Master.sameOtherIdKey_comm a b hkey
    exact hany (List.any_eq_true.mpr ⟨a, ha, this⟩)

/-- Expiring a subset of rows in place preserves "one active row per
natural key": rows that stay active are untouched. -/
theorem Master.del_external_org_other_id_preserves
    (db : Master.MasterDB) (o : Nat) (i : String) (sch : Option Nat)
    (src : Nat) (c : Option String) (n : Nat)
    (h : Master.OneActivePerKey db.other_ids) :
    Master.OneActivePerKey
      (Master.del_external_org_other_id db o i sch src c n).other_ids := by
  unfold Master.del_external_org_other_id
  by_cases hany : db.other_ids.any (Master.delOtherIdMatch o i sch) = true
  · rw [if_pos hany]
    simp only
    rw [Master.OneActivePerKey, List.pairwise_map]
    refine h.imp ?_
    intro a b hab
    rintro ⟨ha, hb, hkey⟩
    by_cases hma : Master.delOtherIdMatch o i sch a = true
    · simp [hma] at ha
    · by_cases hmb : Master.delOtherIdMatch o i sch b = true
      · simp [hmb] at hb
      · simp only [hma, hmb, if_neg, Bool.false_eq_true,
          reduceIte] at ha hb hkey
        exact hab ⟨ha, hb, hkey⟩
  · rw [if_neg hany]
    exact h

/-- Deleting aliases does not touch the other-ID table. -/
theorem Master.delAlias_other_ids (db : Master.MasterDB) (o : Nat)
    (a : String) (src : Nat) (l : String) (c : Option String) (n : Nat) :
    (Master.del_external_org_alias db o a src l c n).other_ids =
      db.other_ids := by
  rw [Master.del_external_org_alias]
  split <;> rfl

/-- Deleting postcodes does not touch the other-ID table. -/
theorem Master.delPostcode_other_ids (db : Master.MasterDB) (o : Nat)
    (p : Option Nat) (src : Nat) (c : Option String) (n : Nat) :
    (Master.del_external_org_postcode db o p src c n).other_ids =
      db.other_ids := by
  rw [Master.del_external_org_postcode]
  split <;> rfl

/-- Deleting relationships does not touch the other-ID table. -/
theorem Master.delRel_other_ids (db : Master.MasterDB) (o1 : Nat)
    (o2 rt : Option Nat) (src : Nat) (c : Option String) (n : Nat) :
    (Master.del_external_org_relationship db o1 o2 rt src c n).other_ids =
      db.other_ids := by
  rw [Master.del_external_org_relationship]
  split <;> rfl

/-- A successful rename does not touch the other-ID table. -/
theorem Master.rename_other_ids (db : Master.MasterDB) (o : Nat)
    (nm : String) (src : Nat) (c : Option String) (al : Bool)
    (lg : String) (db2 : Master.MasterDB)
    (h : Master.rename_external_org db o nm src c al lg = some db2) :
    db2.other_ids = db.other_ids := by
  rw [Master.rename_external_org] at h
  cases hf : db.orgs.find? (fun r => r.id == o) with
  | none => rw [hf] at h; cases h
  | some row =>
    rw [hf] at h
    cases al with
    | true =>
      simp only [if_pos] at h
      cases h
      rfl
    | false =>
      simp only [Bool.false_eq_true, if_neg] at h
      cases h
      rfl

/-- `del_external_org` preserves the one-active-row invariant on the
other-ID table (its only effect there is the wildcard expiry). -/
theorem Master.del_external_org_preserves_other (db : Master.MasterDB)
    (o src : Nat) (c : Option String) (n : Nat)
    (h : Master.OneActivePerKey db.other_ids) :
    Master.OneActivePerKey
      (Master.del_external_org db o src c n).other_ids := by
  rw [Master.del_external_org]
  split
  · rw [Master.delAlias_other_ids, Master.delRel_other_ids,
        Master.delPostcode_other_ids]
    exact Master.del_external_org_other_id_preserves db o "*" none src
      c n h
  · exact h

/-- A fold of `INSERT IGNORE`s preserves the one-active-row invariant
on the other-ID table. -/
theorem Master.foldl_insertIgnoreOtherId_preserves {A : Type}
    (g : A → Master.OtherIdRow) (sel : List A)
    (t : List Master.OtherIdRow) (h : Master.OneActivePerKey t) :
    Master.OneActivePerKey
      (sel.foldl (fun t a => Master.insertIgnoreOtherId t (g a)) t) := by
  induction sel generalizing t with
  | nil => exact h
  | cons a sel ih =>
    exact ih _ (Master.insertIgnoreOtherId_preserves t (g a) h)

/-- `merge_external_org` preserves the one-active-row invariant on the
other-ID table: the copies are `INSERT IGNORE`s and the expiry is
`del_external_org`. -/
theorem Master.merge_preserves_other (db : Master.MasterDB)
    (k l src : Nat) (c : Option String) (n : Nat)
    (h : Master.OneActivePerKey db.other_ids) :
    Master.OneActivePerKey
      (Master.merge_external_org db k l src c n).other_ids := by
  rw [Master.merge_external_org]
  exact Master.del_external_org_preserves_other _ l src c n
    (Master.foldl_insertIgnoreOtherId_preserves _ _ _ h)

/-- Every single entity-master operation preserves the one-active-row
invariant on the other-ID table. -/
theorem Master.applyMasterOp_other_id_invariant (db : Master.MasterDB)
    (op : Master.MasterOp) (h : Master.OneActivePerKey db.other_ids) :
    Master.OneActivePerKey (Master.applyMasterOp db op).other_ids := by
  cases op with
  | addOrg nm src c e b o g => exact h
  | addAlias o a src l c => exact h
  | addOtherId o i sch src c =>
    exact Master.insertIgnoreOtherId_preserves _ _ h
  | addPostcode o p src c => exact h
  | addRel o1 o2 rt src c => exact h
  | delOrg o src c n =>
    exact Master.del_external_org_preserves_other db o src c n h
  | delAlias o a src l c n =>
    show Master.OneActivePerKey
      (Master.del_external_org_alias db o a src l c n).other_ids
    rw [Master.delAlias_other_ids]
    exact h
  | delOtherId o i sch src c n =>
    exact Master.del_external_org_other_id_preserves db o i sch src c
      n h
  | delPostcode o p src c n =>
    show Master.OneActivePerKey
      (Master.del_external_org_postcode db o p src c n).other_ids
    rw [Master.delPostcode_other_ids]
    exact h
  | delRel o1 o2 rt src c n =>
    show Master.OneActivePerKey
      (Master.del_external_org_relationship db o1 o2 rt src c n).other_ids
    rw [Master.delRel_other_ids]
    exact h
  | mergeOrgs k l src c n =>
    exact Master.merge_preserves_other db k l src c n h
  | renameOrg o nm src c al lg =>
    show Master.OneActivePerKey
      (match Master.rename_external_org db o nm src c al lg with
       | some db2 => db2
       | none => db).other_ids
    cases hr : Master.rename_external_org db o nm src c al lg with
    | none => exact h
    | some db2 =>
      rw [Master.rename_other_ids db o nm src c al lg db2 hr]
      exact h

/-- C2: starting from a state where each (`master_id`, `other_id`,
`scheme`) natural key has at most one active assertion row, every state
reachable by a sequence of entity-master operations (adds, deletes —
single-key or wildcard — merges and renames) still has at most one
active row per key: re-adding an already-asserted key creates no second
active row; and the delete operation only rewrites rows that are
currently active (every row is either kept verbatim or was active and
is expired with the given source and optional comment). -/
theorem Master.other_id_one_active_invariant
    (ops : List Master.MasterOp) (db : Master.MasterDB)
    (h : Master.OneActivePerKey db.other_ids) :
    Master.OneActivePerKey (Master.applyMasterOps db ops).other_ids ∧
    (∀ (o : Nat) (i : String) (sch : Option Nat) (src : Nat)
        (c : Option String) (n : Nat) (db2 : Master.MasterDB),
      List.Forall₂ (fun old new =>
          new = old ∨
          (old.valid_end = none ∧
           new = Master.expireOtherIdRow src c n old))
        db2.other_ids
        (Master.del_external_org_other_id db2 o i sch src c n).other_ids) := by
  constructor
  · induction ops generalizing db with
    | nil => exact h
    | cons op ops ih =>
      exact ih _ (Master.applyMasterOp_other_id_invariant db op h)
  · intro o i sch src c n db2
    unfold Master.del_external_org_other_id
    by_cases hany : db2.other_ids.any (Master.delOtherIdMatch o i sch) = true
    · rw [if_pos hany]
      simp only
      rw [List.forall₂_map_right_iff]
      rw [List.forall₂_same]
      intro x _
      by_cases hmx : Master.delOtherIdMatch o i sch x = true
      · refine Or.inr ⟨?_, by rw [if_pos hmx]; rfl⟩
        have := hmx
        simp only [Master.delOtherIdMatch, Bool.and_eq_true] at this
        exact Option.isNone_iff_eq_none.mp this.1.2
      · exact Or.inl (by rw [if_neg hmx])
    · rw [if_neg hany]
      exact List.forall₂_same.mpr (fun x _ => Or.inl rfl)

/-- Witness for C2: an add of a fresh key, a re-add of the same key, a
merge and a delete, starting from the empty state. -/
theorem Master.other_id_one_active_invariant_witness :
    Master.OneActivePerKey
      (Master.applyMasterOps ⟨[], [], [], [], [], 0⟩
        [.addOtherId 1 "X" 2 3 none, .addOtherId 1 "X" 2 4 none,
         .mergeOrgs 1 2 9 none 7,
         .delOtherId 1 "X" (some 2) 5 none 8]).other_ids ∧
    (∀ (o : Nat) (i : String) (sch : Option Nat) (src : Nat)
        (c : Option String) (n : Nat) (db2 : Master.MasterDB),
      List.Forall₂ (fun old new =>
          new = old ∨
          (old.valid_end = none ∧
           new = Master.expireOtherIdRow src c n old))
        db2.other_ids
        (Master.del_external_org_other_id db2 o i sch src c n).other_ids) :=
  Master.other_id_one_active_invariant
    [.addOtherId 1 "X" 2 3 none, .addOtherId 1 "X" 2 4 none,
     .mergeOrgs 1 2 9 none 7, .delOtherId 1 "X" (some 2) 5 none 8]
    ⟨[], [], [], [], [], 0⟩ (List.Pairwise.nil)

/-- `TableFrame` is reflexive. -/
theorem Master.tableFrame_refl {R D : Type} (data : R → D)
    (t : List R) : Master.TableFrame data t t :=
  ⟨[], by simp⟩

/-- `TableFrame` is transitive. -/
theorem Master.tableFrame_trans {R D : Type} {data : R → D}
    {t1 t2 t3 : List R} (h1 : Master.TableFrame data t1 t2)
    (h2 : Master.TableFrame data t2 t3) :
    Master.TableFrame data t1 t3 := by
  obtain ⟨e1, he1⟩ := h1
  obtain ⟨e2, he2⟩ := h2
  exact ⟨e1 ++ e2, by rw [he2, he1, List.append_assoc]⟩

/-- Appending rows preserves the frame. -/
theorem Master.tableFrame_append {R D : Type} (data : R → D)
    (t ext : List R) : Master.TableFrame data t (t ++ ext) :=
  ⟨ext.map data, by simp⟩

/-- Mapping a function that does not touch the data columns preserves
the frame. -/
theorem Master.tableFrame_map {R D : Type} (data : R → D) (f : R → R)
    (t : List R) (h : ∀ r, data (f r) = data r) :
    Master.TableFrame data t (t.map f) := by
  refine ⟨[], ?_⟩
  rw [List.map_map, List.append_nil]
  exact List.map_congr_left (fun x _ => h x)

/-- A fold of frame-preserving steps preserves the frame. -/
theorem Master.tableFrame_foldl {R D A : Type} (data : R → D)
    (step : List R → A → List R)
    (hstep : ∀ t a, Master.TableFrame data t (step t a)) (sel : List A)
    (t : List R) : Master.TableFrame data t (sel.foldl step t) := by
  induction sel generalizing t with
  | nil => exact Master.tableFrame_refl data t
  | cons a sel ih =>
    exact Master.tableFrame_trans (hstep t a) (ih (step t a))

/-- `INSERT IGNORE` preserves the frame (alias table). -/
theorem Master.tableFrame_insertIgnoreAlias (t : List Master.AliasRow)
    (r : Master.AliasRow) :
    Master.TableFrame Master.aliasData t (Master.insertIgnoreAlias t r) := by
  unfold Master.insertIgnoreAlias
  split
  · exact Master.tableFrame_refl _ t
  · exact Master.tableFrame_append _ t [r]

/-- `INSERT IGNORE` preserves the frame (other-ID table). -/
theorem Master.tableFrame_insertIgnoreOtherId
    (t : List Master.OtherIdRow) (r : Master.OtherIdRow) :
    Master.TableFrame Master.otherIdData t
      (Master.insertIgnoreOtherId t r) := by
  unfold Master.insertIgnoreOtherId
  split
  · exact Master.tableFrame_refl _ t
  · exact Master.tableFrame_append _ t [r]

/-- `INSERT IGNORE` preserves the frame (postcode table). -/
theorem Master.tableFrame_insertIgnorePostcode
    (t : List Master.PostcodeRow) (r : Master.PostcodeRow) :
    Master.TableFrame Master.postcodeData t
      (Master.insertIgnorePostcode t r) := by
  unfold Master.insertIgnorePostcode
  split
  · exact Master.tableFrame_refl _ t
  · exact Master.tableFrame_append _ t [r]

/-- `INSERT IGNORE` preserves the frame (relationship table). -/
theorem Master.tableFrame_insertIgnoreRel (t : List Master.RelRow)
    (r : Master.RelRow) :
    Master.TableFrame Master.relData t (Master.insertIgnoreRel t r) := by
  unfold Master.insertIgnoreRel
  split
  · exact Master.tableFrame_refl _ t
  · exact Master.tableFrame_append _ t [r]

/-- `DBFrame` is reflexive. -/
theorem Master.dbFrame_refl (db : Master.MasterDB) :
    Master.DBFrame db db :=
  ⟨Master.tableFrame_refl _ _, Master.tableFrame_refl _ _,
   Master.tableFrame_refl _ _, Master.tableFrame_refl _ _,
   Master.tableFrame_refl _ _⟩

/-- `DBFrame` is transitive. -/
theorem Master.dbFrame_trans {db1 db2 db3 : Master.MasterDB}
    (h1 : Master.DBFrame db1 db2) (h2 : Master.DBFrame db2 db3) :
    Master.DBFrame db1 db3 :=
  ⟨Master.tableFrame_trans h1.1 h2.1,
   Master.tableFrame_trans h1.2.1 h2.2.1,
   Master.tableFrame_trans h1.2.2.1 h2.2.2.1,
   Master.tableFrame_trans h1.2.2.2.1 h2.2.2.2.1,
   Master.tableFrame_trans h1.2.2.2.2 h2.2.2.2.2⟩

/-- `del_external_org_alias` only rewrites `valid_end`, `source` and
`source_comment`. -/
theorem Master.delAlias_dbFrame (db : Master.MasterDB) (o : Nat)
    (a : String) (src : Nat) (l : String) (c : Option String) (n : Nat) :
    Master.DBFrame db (Master.del_external_org_alias db o a src l c n) := by
  rw [Master.del_external_org_alias]
  by_cases hb : db.aliases.any (Master.delAliasMatch o a l) = true
  · rw [if_pos hb]
    refine ⟨Master.tableFrame_refl _ _, ?_, Master.tableFrame_refl _ _,
      Master.tableFrame_refl _ _, Master.tableFrame_refl _ _⟩
    refine Master.tableFrame_map _ _ _ (fun r => ?_)
    by_cases hm : Master.delAliasMatch o a l r = true <;>
      simp [hm, Master.aliasData]
  · rw [if_neg hb]
    exact Master.dbFrame_refl db

/-- `del_external_org_other_id` only rewrites `valid_end`, `source` and
`source_comment`. -/
theorem Master.delOtherId_dbFrame (db : Master.MasterDB) (o : Nat)
    (i : String) (sch : Option Nat) (src : Nat) (c : Option String)
    (n : Nat) :
    Master.DBFrame db
      (Master.del_external_org_other_id db o i sch src c n) := by
  rw [Master.del_external_org_other_id]
  by_cases hb : db.other_ids.any (Master.delOtherIdMatch o i sch) = true
  · rw [if_pos hb]
    refine ⟨Master.tableFrame_refl _ _, Master.tableFrame_refl _ _, ?_,
      Master.tableFrame_refl _ _, Master.tableFrame_refl _ _⟩
    refine Master.tableFrame_map _ _ _ (fun r => ?_)
    by_cases hm : Master.delOtherIdMatch o i sch r = true <;>
      simp [hm, Master.otherIdData]
  · rw [if_neg hb]
    exact Master.dbFrame_refl db

/-- `del_external_org_postcode` only rewrites `valid_end`, `source` and
`source_comment`. -/
theorem Master.delPostcode_dbFrame (db : Master.MasterDB) (o : Nat)
    (p : Option Nat) (src : Nat) (c : Option String) (n : Nat) :
    Master.DBFrame db
      (Master.del_external_org_postcode db o p src c n) := by
  rw [Master.del_external_org_postcode]
  by_cases hb : db.postcodes.any (Master.delPostcodeMatch o p) = true
  · rw [if_pos hb]
    refine ⟨Master.tableFrame_refl _ _, Master.tableFrame_refl _ _,
      Master.tableFrame_refl _ _, ?_, Master.tableFrame_refl _ _⟩
    refine Master.tableFrame_map _ _ _ (fun r => ?_)
    by_cases hm : Master.delPostcodeMatch o p r = true <;>
      simp [hm, Master.postcodeData]
  · rw [if_neg hb]
    exact Master.dbFrame_refl db

/-- `del_external_org_relationship` only rewrites `valid_end`, `source`
and `source_comment`. -/
theorem Master.delRel_dbFrame (db : Master.MasterDB) (o1 : Nat)
    (o2 rt : Option Nat) (src : Nat) (c : Option String) (n : Nat) :
    Master.DBFrame db
      (Master.del_external_org_relationship db o1 o2 rt src c n) := by
  rw [Master.del_external_org_relationship]
  by_cases hb : db.rels.any (Master.delRelMatch o1 o2 rt) = true
  · rw [if_pos hb]
    refine ⟨Master.tableFrame_refl _ _, Master.tableFrame_refl _ _,
      Master.tableFrame_refl _ _, Master.tableFrame_refl _ _, ?_⟩
    refine Master.tableFrame_map _ _ _ (fun r => ?_)
    by_cases hm : Master.delRelMatch o1 o2 rt r = true <;>
      simp [hm, Master.relData]
  · rw [if_neg hb]
    exact Master.dbFrame_refl db

/-- `del_external_org` only rewrites `valid_end`, `source` and
`source_comment` across the five tables. -/
theorem Master.delOrg_dbFrame (db : Master.MasterDB) (o src : Nat)
    (c : Option String) (n : Nat) :
    Master.DBFrame db (Master.del_external_org db o src c n) := by
  rw [Master.del_external_org]
  by_cases hb : db.orgs.any (fun r => r.id == o) = true
  · rw [if_pos hb]
    refine Master.dbFrame_trans (Master.delOtherId_dbFrame db o "*" none
      src c n) ?_
    refine Master.dbFrame_trans (Master.delPostcode_dbFrame _ o none
      src c n) ?_
    refine Master.dbFrame_trans (Master.delRel_dbFrame _ o none none
      src c n) ?_
    refine Master.dbFrame_trans (Master.delAlias_dbFrame _ o "*" src
      "en" c n) ?_
    refine ⟨?_, Master.tableFrame_refl _ _, Master.tableFrame_refl _ _,
      Master.tableFrame_refl _ _, Master.tableFrame_refl _ _⟩
    refine Master.tableFrame_map _ _ _ (fun r => ?_)
    split <;> simp [Master.orgData]
  · rw [if_neg hb]
    exact Master.dbFrame_refl db

/-- `merge_external_org` only appends copied rows and rewrites
`valid_end`, `source` and `source_comment` on expired ones. -/
theorem Master.merge_dbFrame (db : Master.MasterDB) (k l src : Nat)
    (c : Option String) (n : Nat) :
    Master.DBFrame db (Master.merge_external_org db k l src c n) := by
  rw [Master.merge_external_org]
  refine Master.dbFrame_trans ?_ (Master.delOrg_dbFrame _ l src c n)
  refine ⟨Master.tableFrame_refl _ _, ?_, ?_, ?_, ?_⟩
  · exact Master.tableFrame_foldl _ _
      (fun t a => Master.tableFrame_insertIgnoreAlias t _) _ _
  · exact Master.tableFrame_foldl _ _
      (fun t a => Master.tableFrame_insertIgnoreOtherId t _) _ _
  · exact Master.tableFrame_foldl _ _
      (fun t a => Master.tableFrame_insertIgnorePostcode t _) _ _
  · refine Master.tableFrame_trans ?_ (Master.tableFrame_foldl _ _
      (fun t a => Master.tableFrame_insertIgnoreRel t _) _ _)
    exact Master.tableFrame_foldl _ _
      (fun t a => Master.tableFrame_insertIgnoreRel t _) _ _

/-- C3 (counterexample): `rename_external_org` is an in-place mutation:
renaming organization 1 changes the `name` data column of its
pre-existing `master_external_org` row, so the soft-delete-and-reinsert
frame property fails for this update operation. -/
theorem Master.rename_breaks_frame :
    ¬ Master.DBFrame
      ⟨[⟨1, "Universidad Generica", false, false, false, false, 4,
         none, none⟩], [], [], [], [], 2⟩
      (Master.applyMasterOp
        ⟨[⟨1, "Universidad Generica", false, false, false, false, 4,
           none, none⟩], [], [], [], [], 2⟩
        (.renameOrg 1 "Generic University" 5 none true "es")) := by
  rintro ⟨⟨ext, hext⟩, -⟩
  have hval : (Master.applyMasterOp
      ⟨[⟨1, "Universidad Generica", false, false, false, false, 4,
         none, none⟩], [], [], [], [], 2⟩
      (.renameOrg 1 "Generic University" 5 none true "es")).orgs =
      [⟨1, "Generic University", false, false, false, false, 4,
        none, none⟩] := by decide
  rw [hval] at hext
  simp [Master.orgData] at hext

/-- C3 (amended): every update operation of the entity-master library
other than `rename_external_org` leaves the data columns (everything
but `valid_end`, `source`, `source_comment`) of every pre-existing row
of every table unchanged, only expiring rows in place or appending new
ones; `rename_external_org` alone rewrites a data column (`name`) in
place. -/
theorem Master.non_rename_ops_preserve_data (op : Master.MasterOp)
    (hop : op.isRename = false) (db : Master.MasterDB) :
    Master.DBFrame db (Master.applyMasterOp db op) := by
  cases op with
  | addOrg nm src c e b o g =>
    exact ⟨Master.tableFrame_append _ _ _, Master.tableFrame_refl _ _,
      Master.tableFrame_refl _ _, Master.tableFrame_refl _ _,
      Master.tableFrame_refl _ _⟩
  | addAlias o a src l c =>
    exact ⟨Master.tableFrame_refl _ _,
      Master.tableFrame_insertIgnoreAlias _ _,
      Master.tableFrame_refl _ _, Master.tableFrame_refl _ _,
      Master.tableFrame_refl _ _⟩
  | addOtherId o i sch src c =>
    exact ⟨Master.tableFrame_refl _ _, Master.tableFrame_refl _ _,
      Master.tableFrame_insertIgnoreOtherId _ _,
      Master.tableFrame_refl _ _, Master.tableFrame_refl _ _⟩
  | addPostcode o p src c =>
    exact ⟨Master.tableFrame_refl _ _, Master.tableFrame_refl _ _,
      Master.tableFrame_refl _ _,
      Master.tableFrame_insertIgnorePostcode _ _,
      Master.tableFrame_refl _ _⟩
  | addRel o1 o2 rt src c =>
    exact ⟨Master.tableFrame_refl _ _, Master.tableFrame_refl _ _,
      Master.tableFrame_refl _ _, Master.tableFrame_refl _ _,
      Master.tableFrame_insertIgnoreRel _ _⟩
  | delOrg o src c n => exact Master.delOrg_dbFrame db o src c n
  | delAlias o a src l c n =>
    exact Master.delAlias_dbFrame db o a src l c n
  | delOtherId o i sch src c n =>
    exact Master.delOtherId_dbFrame db o i sch src c n
  | delPostcode o p src c n =>
    exact Master.delPostcode_dbFrame db o p src c n
  | delRel o1 o2 rt src c n =>
    exact Master.delRel_dbFrame db o1 o2 rt src c n
  | mergeOrgs k l src c n => exact Master.merge_dbFrame db k l src c n
  | renameOrg o nm src c a lg => simp [Master.MasterOp.isRename] at hop

/-- Witness for the amended C3 at a concrete delete on a populated
state. -/
theorem Master.non_rename_ops_preserve_data_witness :
    Master.DBFrame
      ⟨[⟨1, "Acme", false, true, false, false, 4, none, none⟩],
       [⟨1, "ACME Inc.", "en", 4, none, none⟩], [], [], [], 2⟩
      (Master.applyMasterOp
        ⟨[⟨1, "Acme", false, true, false, false, 4, none, none⟩],
         [⟨1, "ACME Inc.", "en", 4, none, none⟩], [], [], [], 2⟩
        (.delAlias 1 "ACME Inc." 9 "en" none 7)) :=
  Master.non_rename_ops_preserve_data
    (.delAlias 1 "ACME Inc." 9 "en" none 7) (by decide)
    ⟨[⟨1, "Acme", false, true, false, false, 4, none, none⟩],
     [⟨1, "ACME Inc.", "en", 4, none, none⟩], [], [], [], 2⟩
